import Mathlib

/-!
Verification of the Bayou collaborative-editor core against its source.

Shallow embedding of the revision-control engine: the delta/change/snapshot
data model, the `BaseControl` optimistic-concurrency update engine with its
retry loop, the read-side operations (`getSnapshot`, `getChangeAfter`), the
`AuthorSession` facade, and the `BaseFile` revision-number validation layer.

Sources embedded (JavaScript):
- `BaseControl` (update retry loop, getSnapshot, getChangeAfter)
- `BaseDelta` (compose validation, isEmpty, EMPTY)
- `DocumentSnapshot` (compose, diff)
- `AuthorSession` (public RPC surface, author-identity injection)
- `BaseFile` (revNum and transact validation)

Fallible code is embedded as `Except Err`. JavaScript numbers standing for
revision numbers are embedded as `Nat` (the code validates them as
non-negative safe integers via `RevisionNumber.check`); where a sentinel
`-1` occurs (`BaseFile._lastRevNum`) we use `Int`.
-/

namespace Bayou

/--
Error taxonomy. The code constructs errors through `Errors.bad_value` /
`TypeError.badValue` (invalid caller input), `Errors.badUse` (invalid use of
an API), `Errors.wtf` (internal-consistency failure), `Errors.aborted`
(fatal abort), and `Errors.revision_not_available` (requested revision not
retained, the sole error name for that condition).
-/
inductive Err where
  | badValue (desc : String)
  | badUse (msg : String)
  | wtf (msg : String)
  | aborted (msg : String)
  | revisionNotAvailable (revNum : Nat)
deriving DecidableEq

/--
Modelled from the spec: the error-taxonomy classification. The spec
taxonomy groups bad shape/type/range/use of caller input under
`InvalidArgument` (surfaced synchronously, never retried), while `wtf`
signals an internal-consistency failure (an implementation bug), `aborted`
a fatal retry-budget exhaustion, and `revision_not_available` a retention
miss. The concrete `util-common` error constructors are not under `src/`;
only their call sites are.
-/
def Err.isInputError : Err → Bool
  | .badValue _ => true
  | .badUse _ => true
  | _ => false

/--
Delta instance data, from `BaseDelta`: an immutable ordered list of
operations. The operation type is a parameter `π` (the concrete op algebra
is pluggable). The concrete-subclass identity that JavaScript carries on
each object is irrelevant for the controller sections, where a single
concrete class is fixed; it is modelled explicitly in `BaseDeltaObj` below
for the `compose` validation logic.
-/
structure BaseDelta (π : Type) where
  ops : List π
deriving DecidableEq

/-- Embeds `BaseDelta.isEmpty()`: true iff the `ops` array has no elements. -/
def BaseDelta.isEmpty {π : Type} (d : BaseDelta π) : Bool :=
  d.ops.isEmpty

/-- Embeds `BaseDelta.EMPTY`: the instance whose `ops` is the empty array. -/
def BaseDelta.EMPTY {π : Type} : BaseDelta π :=
  ⟨[]⟩

/--
Change data, from the change classes used by `BaseControl`: a delta, the
revision number produced by applying it, an optional wall-clock timestamp
and an optional author ID.
-/
structure Change (π : Type) where
  revNum : Nat
  delta : BaseDelta π
  timestamp : Option Nat
  authorId : Option String
deriving DecidableEq

/--
Modelled from the spec: `changeClass.FIRST.withRevNum(revNum)`, the value
the update fast path returns. The change classes themselves are not under
`src/`; per the spec and the `update()` doc comment this is the empty-delta
correction at the given revision number, with `timestamp` and `authorId`
both null.
-/
def Change.FIRSTwithRevNum {π : Type} (revNum : Nat) : Change π :=
  ⟨revNum, BaseDelta.EMPTY, none, none⟩

/-- Embeds `INITIAL_UPDATE_RETRY_MSEC = 50`. -/
def INITIAL_UPDATE_RETRY_MSEC : Nat := 50

/-- Embeds `UPDATE_RETRY_GROWTH_FACTOR = 5`. -/
def UPDATE_RETRY_GROWTH_FACTOR : Nat := 5

/-- Embeds `MAX_UPDATE_TIME_MSEC = 20 * 1000`. -/
def MAX_UPDATE_TIME_MSEC : Nat := 20 * 1000

/--
Outcome of a call to `BaseControl.update()`, together with the list of
retry sleeps (in msec, in order) the call performed. `exhausted` marks the
point where the modelled list of attempt outcomes runs out while the loop
would keep iterating.
-/
inductive LoopOutcome (π : Type) where
  | result (c : Change π) (sleeps : List Nat)
  | failed (e : Err) (sleeps : List Nat)
  | exhausted (sleeps : List Nat)
deriving DecidableEq

/-- Records one performed sleep in front of an outcome trace. -/
def LoopOutcome.addSleep {π : Type} (d : Nat) : LoopOutcome π → LoopOutcome π
  | .result c s => .result c (d :: s)
  | .failed e s => .failed e (d :: s)
  | .exhausted s => .exhausted (d :: s)

/--
Environment of a `BaseControl` instance: the subclass `_impl_` override
points plus the snapshot compose operation of the snapshot class. The
successive outcomes of `_impl_update` calls are given as a list, one entry
per attempt; `Except.ok none` is the race sentinel (`null` in JavaScript).
-/
structure ControlImpl (π σ : Type) where
  currentRevNum : Except Err Nat
  implGetSnapshot : Nat → Except Err (Option σ)
  implGetChangeAfter : Nat → Nat → Except Err (Option (Change π))
  implUpdate : List (Except Err (Option (Change π)))
  snapCompose : σ → Change π → Except Err σ

/--
Embeds `RevisionNumber.maxInc(value, maxInc)`: non-negative-integer check
(carried by the `Nat` type here) plus an inclusive upper bound, failing
with a bad-value error when the bound is exceeded. The `RevisionNumber`
class is not under `src/`; the semantics follow its in-src predecessor
`VersionNumber.check(value, max)`.
-/
def RevisionNumber.maxInc (value maxInc : Nat) : Except Err Nat :=
  if value ≤ maxInc then .ok value
  else .error (.badValue "revision number exceeds maximum")

/--
Embeds `BaseControl.getSnapshot(revNum = null)`: reads the current revision
number, defaults `null` to it and bounds an explicit argument by it, then
asks the subclass implementation; a `null` implementation result becomes a
`revision_not_available` error.
-/
def BaseControl.getSnapshot {π σ : Type} (impl : ControlImpl π σ)
    (revNum : Option Nat) : Except Err σ :=
  match impl.currentRevNum with
  | .error e => .error e
  | .ok currentRevNum =>
    match
      (match revNum with
       | none => Except.ok currentRevNum
       | some n => RevisionNumber.maxInc n currentRevNum) with
    | .error e => .error e
    | .ok r =>
      match impl.implGetSnapshot r with
      | .error e => .error e
      | .ok none => .error (.revisionNotAvailable r)
      | .ok (some s) => .ok s

/--
Embeds `BaseControl.getChangeAfter(baseRevNum)`: reads the current revision
number, bounds `baseRevNum` by it, asks the subclass implementation; a
`null` implementation result becomes a `revision_not_available` error, and
a result carrying a non-null `timestamp` or `authorId` is rejected as a
bad value.
-/
def BaseControl.getChangeAfter {π σ : Type} (impl : ControlImpl π σ)
    (baseRevNum : Nat) : Except Err (Change π) :=
  match impl.currentRevNum with
  | .error e => .error e
  | .ok currentRevNum =>
    match RevisionNumber.maxInc baseRevNum currentRevNum with
    | .error e => .error e
    | .ok _ =>
      match impl.implGetChangeAfter baseRevNum currentRevNum with
      | .error e => .error e
      | .ok none => .error (.revisionNotAvailable baseRevNum)
      | .ok (some result) =>
        if result.timestamp = none ∧ result.authorId = none then .ok result
        else .error (.badValue "timestamp and authorId must be null")

/--
Embeds the retry loop of `BaseControl.update()`. Each list entry is the
outcome of one `_impl_update` attempt: a thrown error propagates at once, a
non-null result returns at once, and the null race sentinel either aborts
(when the accumulated retry time has reached `MAX_UPDATE_TIME_MSEC`) or
sleeps `retryDelayMsec`, accumulates it into `retryTotalMsec`, multiplies
the delay by `UPDATE_RETRY_GROWTH_FACTOR` and iterates.
-/
def updateLoop {π : Type} (attempts : List (Except Err (Option (Change π))))
    (retryDelayMsec retryTotalMsec : Nat) : LoopOutcome π :=
  match attempts with
  | [] => .exhausted []
  | attempt :: rest =>
    match attempt with
    | .error e => .failed e []
    | .ok (some result) => .result result []
    | .ok none =>
      if MAX_UPDATE_TIME_MSEC ≤ retryTotalMsec then
        .failed (.aborted "Too many failed attempts in update().") []
      else
        (updateLoop rest (retryDelayMsec * UPDATE_RETRY_GROWTH_FACTOR)
          (retryTotalMsec + retryDelayMsec)).addSleep retryDelayMsec

/--
Embeds `BaseControl.update(change)`: surface class check (type-level here),
rejection of a null `timestamp`, rejection of `revNum < 1` (the JavaScript
code phrases this as `baseRevNum < 0` for `baseRevNum = revNum - 1`), the
empty-delta fast path returning `FIRST.withRevNum(revNum - 1)`, then the
base-snapshot fetch through `getSnapshot`, the expected-result composition,
and the retry loop.
-/
def BaseControl.update {π σ : Type} (impl : ControlImpl π σ)
    (change : Change π) : LoopOutcome π :=
  if change.timestamp = none then
    .failed (.badValue "timestamp must not be null") []
  else if change.revNum < 1 then
    .failed (.badValue "revNum must be at least 1") []
  else if change.delta.isEmpty then
    .result (Change.FIRSTwithRevNum (change.revNum - 1)) []
  else
    match BaseControl.getSnapshot impl (some (change.revNum - 1)) with
    | .error e => .failed e []
    | .ok baseSnapshot =>
      match impl.snapCompose baseSnapshot change with
      | .error e => .failed e []
      | .ok _expectedSnapshot =>
        updateLoop impl.implUpdate INITIAL_UPDATE_RETRY_MSEC 0

/-- Retry delays the loop performs: the i-th retry sleeps 50 times 5 to the i. -/
def retryDelays (k : Nat) : List Nat :=
  (List.range k).map fun i => INITIAL_UPDATE_RETRY_MSEC * UPDATE_RETRY_GROWTH_FACTOR ^ i

/--
Helper: under the hypotheses that rule out the validation failures and the
fast path, and that the base fetch and composition succeed, `update`
reduces to the retry loop started at delay 50 and accumulated total 0.
-/
theorem update_enters_loop {π σ : Type} (impl : ControlImpl π σ) (change : Change π)
    (base expected : σ)
    (hts : change.timestamp ≠ none) (hrev : 1 ≤ change.revNum)
    (hne : change.delta.isEmpty = false)
    (hsnap : BaseControl.getSnapshot impl (some (change.revNum - 1)) = .ok base)
    (hcomp : impl.snapCompose base change = .ok expected) :
    BaseControl.update impl change
      = updateLoop impl.implUpdate INITIAL_UPDATE_RETRY_MSEC 0 := by
  have hrev2 : ¬ change.revNum < 1 := by omega
  simp [BaseControl.update, hts, hrev2, hne, hsnap, hcomp]

/--
Helper: six straight race sentinels abort the loop, after sleeps of
exactly 50, 250, 1250, 6250 and 31250 msec; the abort happens at the first
sentinel seen once the accumulated sleep total (39050 msec after five
sleeps) has reached the 20000 msec budget.
-/
theorem updateLoop_six_sentinels {π : Type}
    (rest : List (Except Err (Option (Change π)))) :
    updateLoop (List.replicate 6 (Except.ok none) ++ rest) INITIAL_UPDATE_RETRY_MSEC 0
      = .failed (.aborted "Too many failed attempts in update().")
          [50, 250, 1250, 6250, 31250] := by
  simp [List.replicate, updateLoop, LoopOutcome.addSleep,
    MAX_UPDATE_TIME_MSEC, UPDATE_RETRY_GROWTH_FACTOR, INITIAL_UPDATE_RETRY_MSEC]

/--
Helper: a non-null attempt result after k sentinels (k at most 5) is
returned as the loop result, after exactly the first k backoff delays.
-/
theorem updateLoop_success_after {π : Type} (k : Nat) (hk : k ≤ 5) (c : Change π)
    (rest : List (Except Err (Option (Change π)))) :
    updateLoop (List.replicate k (Except.ok none) ++ Except.ok (some c) :: rest)
        INITIAL_UPDATE_RETRY_MSEC 0
      = .result c (retryDelays k) := by
  interval_cases k <;>
    simp [List.replicate, updateLoop, LoopOutcome.addSleep, retryDelays,
      List.range_succ, MAX_UPDATE_TIME_MSEC, UPDATE_RETRY_GROWTH_FACTOR,
      INITIAL_UPDATE_RETRY_MSEC]

/--
Helper: an error thrown by an attempt after k sentinels (k at most 5)
propagates at once: the loop fails with that very error and performs no
sleep beyond the first k backoff delays.
-/
theorem updateLoop_error_after {π : Type} (k : Nat) (hk : k ≤ 5) (e : Err)
    (rest : List (Except Err (Option (Change π)))) :
    updateLoop (List.replicate k (Except.ok none) ++ Except.error e :: rest)
        INITIAL_UPDATE_RETRY_MSEC 0
      = .failed e (retryDelays k) := by
  interval_cases k <;>
    simp [List.replicate, updateLoop, LoopOutcome.addSleep, retryDelays,
      List.range_succ, MAX_UPDATE_TIME_MSEC, UPDATE_RETRY_GROWTH_FACTOR,
      INITIAL_UPDATE_RETRY_MSEC]

/--
C1: for an `update()` call that reaches the attempt loop, (a) if the
attempt primitive keeps returning the race sentinel, the controller sleeps
exactly 50, 250, 1250, 6250 and 31250 msec (initial 50 msec, times 5 per
retry) and then fails with the aborted error, the accumulated completed
retry delay having reached the 20000 msec budget; (b) a non-null attempt
result is returned as the correction of the first successful attempt,
after exactly the backoff delays of the preceding sentinel attempts; (c)
an error thrown by the attempt primitive propagates immediately, with no
further retry or sleep.
-/
theorem C1_update_retry_protocol {π σ : Type} (impl : ControlImpl π σ)
    (change : Change π) (base expected : σ)
    (hts : change.timestamp ≠ none) (hrev : 1 ≤ change.revNum)
    (hne : change.delta.isEmpty = false)
    (hsnap : BaseControl.getSnapshot impl (some (change.revNum - 1)) = .ok base)
    (hcomp : impl.snapCompose base change = .ok expected) :
    (∀ rest, impl.implUpdate = List.replicate 6 (Except.ok none) ++ rest →
        BaseControl.update impl change
          = .failed (.aborted "Too many failed attempts in update().")
              [50, 250, 1250, 6250, 31250])
    ∧ (∀ k c rest, k ≤ 5 →
        impl.implUpdate = List.replicate k (Except.ok none) ++ Except.ok (some c) :: rest →
        BaseControl.update impl change = .result c (retryDelays k))
    ∧ (∀ k e rest, k ≤ 5 →
        impl.implUpdate = List.replicate k (Except.ok none) ++ Except.error e :: rest →
        BaseControl.update impl change = .failed e (retryDelays k)) := by
  have hloop := update_enters_loop impl change base expected hts hrev hne hsnap hcomp
  refine ⟨?_, ?_, ?_⟩
  · intro rest h
    rw [hloop, h, updateLoop_six_sentinels]
  · intro k c rest hk h
    rw [hloop, h, updateLoop_success_after k hk c rest]
  · intro k e rest hk h
    rw [hloop, h, updateLoop_error_after k hk e rest]

/--
Witness for C1: a concrete controller whose attempt primitive returns the
race sentinel six times; the update call fails with the aborted error
after the exact backoff sleeps.
-/
theorem C1_witness :
    BaseControl.update
        (⟨Except.ok 10, fun _ => Except.ok (some 7), fun _ _ => Except.ok none,
          List.replicate 6 (Except.ok none), fun s _ => Except.ok s⟩ :
          ControlImpl String Nat)
        ⟨5, ⟨["x"]⟩, some 1000, some "alice"⟩
      = .failed (.aborted "Too many failed attempts in update().")
          [50, 250, 1250, 6250, 31250] :=
  (C1_update_retry_protocol
    (⟨Except.ok 10, fun _ => Except.ok (some 7), fun _ _ => Except.ok none,
      List.replicate 6 (Except.ok none), fun s _ => Except.ok s⟩ :
      ControlImpl String Nat)
    ⟨5, ⟨["x"]⟩, some 1000, some "alice"⟩ 7 7
    (by simp) (by simp) (by simp [BaseDelta.isEmpty]) (by rfl) (by rfl)).1 [] rfl

/--
C2: a change with non-null timestamp, revNum at least 1 and an empty delta
takes the fast path: `update` returns the empty correction at
`change.revNum - 1`, whose delta is empty, and the outcome is identical
for every implementation environment (so no base snapshot is fetched, no
revision-log write happens, and `change.revNum` is never validated against
an existing revision), with no retry sleeps.
-/
theorem C2_update_empty_delta_fast_path {π σ : Type}
    (impl impl2 : ControlImpl π σ) (change : Change π)
    (hts : change.timestamp ≠ none) (hrev : 1 ≤ change.revNum)
    (hempty : change.delta.isEmpty = true) :
    BaseControl.update impl change
        = .result (Change.FIRSTwithRevNum (change.revNum - 1)) []
    ∧ (Change.FIRSTwithRevNum (π := π) (change.revNum - 1)).delta.isEmpty = true
    ∧ (Change.FIRSTwithRevNum (π := π) (change.revNum - 1)).revNum = change.revNum - 1
    ∧ BaseControl.update impl change = BaseControl.update impl2 change := by
  have hrev2 : ¬ change.revNum < 1 := by omega
  refine ⟨?_, by simp [Change.FIRSTwithRevNum, BaseDelta.EMPTY, BaseDelta.isEmpty], rfl, ?_⟩
  · simp [BaseControl.update, hts, hrev2, hempty]
  · simp [BaseControl.update, hts, hrev2, hempty]

/--
Witness for C2: a concrete empty-delta change succeeds on the fast path
even though the environment reports every revision as unavailable (the
snapshot implementation always answers null), showing that `revNum` is not
validated and no log access happens.
-/
theorem C2_witness :
    BaseControl.update
        (⟨Except.ok 0, fun _ => Except.ok none, fun _ _ => Except.ok none, [],
          fun s _ => Except.ok s⟩ : ControlImpl String Nat)
        ⟨5, ⟨[]⟩, some 1000, some "alice"⟩
      = .result (Change.FIRSTwithRevNum 4) [] :=
  (C2_update_empty_delta_fast_path
    (⟨Except.ok 0, fun _ => Except.ok none, fun _ _ => Except.ok none, [],
      fun s _ => Except.ok s⟩ : ControlImpl String Nat)
    (⟨Except.ok 0, fun _ => Except.ok none, fun _ _ => Except.ok none, [],
      fun s _ => Except.ok s⟩ : ControlImpl String Nat)
    ⟨5, ⟨[]⟩, some 1000, some "alice"⟩
    (by simp) (by simp) (by rfl)).1

/--
C6: a submitted change with a null timestamp or with revNum below 1 makes
`update` fail at once with a bad-value (InvalidArgument-class) error: the
timestamp check fires first, then the revNum check; the outcome carries no
retry sleeps and is identical for every implementation environment, so the
failure precedes any log access and is never locally recovered.
-/
theorem C6_update_validation {π σ : Type} (impl impl2 : ControlImpl π σ)
    (change : Change π)
    (h : change.timestamp = none ∨ change.revNum < 1) :
    (∃ m, BaseControl.update impl change = .failed (.badValue m) [])
    ∧ (change.timestamp = none →
        BaseControl.update impl change
          = .failed (.badValue "timestamp must not be null") [])
    ∧ (change.timestamp ≠ none → change.revNum < 1 →
        BaseControl.update impl change
          = .failed (.badValue "revNum must be at least 1") [])
    ∧ BaseControl.update impl change = BaseControl.update impl2 change := by
  by_cases hts : change.timestamp = none
  · refine ⟨⟨"timestamp must not be null", ?_⟩, fun _ => ?_, fun hc _ => absurd hts hc, ?_⟩
      <;> simp [BaseControl.update, hts]
  · have hrev : change.revNum < 1 := h.resolve_left hts
    refine ⟨⟨"revNum must be at least 1", ?_⟩, fun hc => absurd hc hts, fun _ _ => ?_, ?_⟩
      <;> simp [BaseControl.update, hts, hrev]

/--
Witness for C6: a change with a null timestamp is rejected synchronously
with the bad-value error, with no sleeps.
-/
theorem C6_witness :
    BaseControl.update
        (⟨Except.ok 10, fun _ => Except.ok (some 7), fun _ _ => Except.ok none, [],
          fun s _ => Except.ok s⟩ : ControlImpl String Nat)
        ⟨5, ⟨["x"]⟩, none, some "alice"⟩
      = .failed (.badValue "timestamp must not be null") [] :=
  ((C6_update_validation
    (⟨Except.ok 10, fun _ => Except.ok (some 7), fun _ _ => Except.ok none, [],
      fun s _ => Except.ok s⟩ : ControlImpl String Nat)
    (⟨Except.ok 10, fun _ => Except.ok (some 7), fun _ _ => Except.ok none, [],
      fun s _ => Except.ok s⟩ : ControlImpl String Nat)
    ⟨5, ⟨["x"]⟩, none, some "alice"⟩ (Or.inl rfl)).2.1) rfl

/--
C5: when the part implementation reports a revision as unavailable (the
null answer), `getChangeAfter` and `getSnapshot` both fail with the single
`revision_not_available` error name (never surfacing the null), and
`getSnapshot(null)` serves the instantaneous current head revision.
-/
theorem C5_revision_not_available {π σ : Type} (impl : ControlImpl π σ)
    (cur : Nat) (hcur : impl.currentRevNum = .ok cur) :
    (∀ baseRevNum, baseRevNum ≤ cur →
        impl.implGetChangeAfter baseRevNum cur = .ok none →
        BaseControl.getChangeAfter impl baseRevNum
          = .error (.revisionNotAvailable baseRevNum))
    ∧ (∀ revNum, revNum ≤ cur →
        impl.implGetSnapshot revNum = .ok none →
        BaseControl.getSnapshot impl (some revNum)
          = .error (.revisionNotAvailable revNum))
    ∧ (∀ s, impl.implGetSnapshot cur = .ok (some s) →
        BaseControl.getSnapshot impl none = .ok s)
    ∧ (impl.implGetSnapshot cur = .ok none →
        BaseControl.getSnapshot impl none = .error (.revisionNotAvailable cur)) := by
  refine ⟨?_, ?_, ?_, ?_⟩
  · intro baseRevNum hle hnull
    simp [BaseControl.getChangeAfter, hcur, RevisionNumber.maxInc, hle, hnull]
  · intro revNum hle hnull
    simp [BaseControl.getSnapshot, hcur, RevisionNumber.maxInc, hle, hnull]
  · intro s hsome
    simp [BaseControl.getSnapshot, hcur, hsome]
  · intro hnull
    simp [BaseControl.getSnapshot, hcur, hnull]

/--
Witness for C5: a concrete part that retains nothing reports
`revision_not_available` from both read operations, and serves the head
when the implementation has it.
-/
theorem C5_witness :
    BaseControl.getChangeAfter
        (⟨Except.ok 10, fun _ => Except.ok none, fun _ _ => Except.ok none, [],
          fun s _ => Except.ok s⟩ : ControlImpl String Nat) 3
      = .error (.revisionNotAvailable 3) :=
  ((C5_revision_not_available
    (⟨Except.ok 10, fun _ => Except.ok none, fun _ _ => Except.ok none, [],
      fun s _ => Except.ok s⟩ : ControlImpl String Nat) 10 rfl).1)
    3 (by omega) rfl

/--
C10: a `baseRevNum` strictly above the instantaneous current revision makes
`getChangeAfter` fail with the bad-value (InvalidArgument-class) error and
not with `revision_not_available`; the outcome is the same for every
subclass implementation function, so the subclass implementation (and its
block-until-change wait) is never invoked; `getSnapshot` rejects an
explicit revision above the current one identically.
-/
theorem C10_out_of_range_rev {π σ : Type} (impl : ControlImpl π σ)
    (cur : Nat) (hcur : impl.currentRevNum = .ok cur) :
    (∀ baseRevNum, cur < baseRevNum →
        BaseControl.getChangeAfter impl baseRevNum
          = .error (.badValue "revision number exceeds maximum"))
    ∧ (∀ baseRevNum f, cur < baseRevNum →
        BaseControl.getChangeAfter
            { impl with implGetChangeAfter := f } baseRevNum
          = BaseControl.getChangeAfter impl baseRevNum)
    ∧ (∀ baseRevNum r, cur < baseRevNum →
        BaseControl.getChangeAfter impl baseRevNum
          ≠ .error (.revisionNotAvailable r))
    ∧ (∀ revNum, cur < revNum →
        BaseControl.getSnapshot impl (some revNum)
          = .error (.badValue "revision number exceeds maximum"))
    ∧ (∀ revNum g, cur < revNum →
        BaseControl.getSnapshot { impl with implGetSnapshot := g } (some revNum)
          = BaseControl.getSnapshot impl (some revNum)) := by
  have hmax : ∀ n, cur < n → RevisionNumber.maxInc n cur
      = .error (.badValue "revision number exceeds maximum") := by
    intro n hn
    simp [RevisionNumber.maxInc]
    omega
  refine ⟨?_, ?_, ?_, ?_, ?_⟩
  · intro baseRevNum hgt
    simp [BaseControl.getChangeAfter, hcur, hmax baseRevNum hgt]
  · intro baseRevNum f hgt
    simp [BaseControl.getChangeAfter, hcur, hmax baseRevNum hgt]
  · intro baseRevNum r hgt
    simp [BaseControl.getChangeAfter, hcur, hmax baseRevNum hgt]
  · intro revNum hgt
    simp [BaseControl.getSnapshot, hcur, hmax revNum hgt]
  · intro revNum g hgt
    simp [BaseControl.getSnapshot, hcur, hmax revNum hgt]

/--
Witness for C10: asking for a change after revision 11 when the head is 10
fails with the bad-value error, regardless of the subclass implementation.
-/
theorem C10_witness :
    BaseControl.getChangeAfter
        (⟨Except.ok 10, fun _ => Except.ok none, fun _ _ => Except.ok none, [],
          fun s _ => Except.ok s⟩ : ControlImpl String Nat) 11
      = .error (.badValue "revision number exceeds maximum") :=
  ((C10_out_of_range_rev
    (⟨Except.ok 10, fun _ => Except.ok none, fun _ _ => Except.ok none, [],
      fun s _ => Except.ok s⟩ : ControlImpl String Nat) 10 rfl).1)
    11 (by omega)

/--
Session state, from `AuthorSession`: the session ID and the author ID are
fixed at construction (the constructor checks both to be non-empty
strings) and stored privately.
-/
structure AuthorSession where
  sessionId : String
  authorId : String
deriving DecidableEq

/--
Public method surface of `AuthorSession`, with the arguments a remote
caller supplies. This enumerates every public method of the class; `δ` is
the caller-supplied delta payload type.
-/
inductive SessionCall (δ : Type) where
  | applyDelta (baseRevNum : Nat) (delta : δ)
  | change (revNum : Nat)
  | deltaAfter (baseRevNum : Nat)
  | getLogInfo
  | getSessionId
  | snapshot (revNum : Option Nat)
  | caretDeltaAfter (baseRevNum : Nat)
  | caretSnapshot (revNum : Option Nat)
  | caretUpdate (docRevNum : Nat) (index : Nat) (length : Nat)
deriving DecidableEq

/--
Invocation forwarded by `AuthorSession` to its underlying document or
caret controller, with the full argument list the controller receives.
-/
inductive ControlCall (δ : Type) where
  | docApplyDelta (baseRevNum : Nat) (delta : δ) (authorId : String)
  | docChange (revNum : Nat)
  | docDeltaAfter (baseRevNum : Nat)
  | docSnapshot (revNum : Option Nat)
  | caretDeltaAfter (baseRevNum : Nat)
  | caretSnapshot (revNum : Option Nat)
  | caretUpdate (sessionId : String) (docRevNum : Nat) (index : Nat) (length : Nat)
deriving DecidableEq

/--
Author identity supplied inside a forwarded controller invocation, when
the invocation carries one.
-/
def ControlCall.suppliedAuthor {δ : Type} : ControlCall δ → Option String
  | .docApplyDelta _ _ authorId => some authorId
  | _ => none

/--
Session identity supplied inside a forwarded controller invocation, when
the invocation carries one.
-/
def ControlCall.suppliedSession {δ : Type} : ControlCall δ → Option String
  | .caretUpdate sessionId _ _ _ => some sessionId
  | _ => none

/--
Embeds the body of each public `AuthorSession` method as the controller
invocation it forwards: `applyDelta` forwards to
`docControl.applyDelta(baseRevNum, delta, this._authorId)`, `caretUpdate`
forwards to `caretControl.update(this._sessionId, docRevNum, index,
length)`, the read methods forward their arguments untouched, and
`getLogInfo` and `getSessionId` compute from session state without any
controller invocation (`none`).
-/
def AuthorSession.dispatch {δ : Type} (s : AuthorSession) :
    SessionCall δ → Option (ControlCall δ)
  | .applyDelta baseRevNum delta => some (.docApplyDelta baseRevNum delta s.authorId)
  | .change revNum => some (.docChange revNum)
  | .deltaAfter baseRevNum => some (.docDeltaAfter baseRevNum)
  | .getLogInfo => none
  | .getSessionId => none
  | .snapshot revNum => some (.docSnapshot revNum)
  | .caretDeltaAfter baseRevNum => some (.caretDeltaAfter baseRevNum)
  | .caretSnapshot revNum => some (.caretSnapshot revNum)
  | .caretUpdate docRevNum index length =>
      some (.caretUpdate s.sessionId docRevNum index length)

/--
C7: `applyDelta` always forwards exactly the authorId fixed at session
construction, whatever the caller passes; `caretUpdate` likewise forwards
the session own sessionId; and across the whole public method surface,
every forwarded invocation either carries no author (or session) identity
at all or carries precisely the session own one, so no public method lets
a caller supply a different identity.
-/
theorem C7_author_identity_injected {δ : Type} (s : AuthorSession)
    (call : SessionCall δ) :
    (∀ (baseRevNum : Nat) (delta : δ),
        AuthorSession.dispatch s (.applyDelta baseRevNum delta)
          = some (.docApplyDelta baseRevNum delta s.authorId))
    ∧ (∀ docRevNum index length,
        AuthorSession.dispatch (δ := δ) s (.caretUpdate docRevNum index length)
          = some (.caretUpdate s.sessionId docRevNum index length))
    ∧ (∀ cc, AuthorSession.dispatch s call = some cc →
        cc.suppliedAuthor = none ∨ cc.suppliedAuthor = some s.authorId)
    ∧ (∀ cc, AuthorSession.dispatch s call = some cc →
        cc.suppliedSession = none ∨ cc.suppliedSession = some s.sessionId) := by
  refine ⟨fun _ _ => rfl, fun _ _ _ => rfl, ?_, ?_⟩ <;>
    · intro cc hcc
      cases call <;>
        simp [AuthorSession.dispatch] at hcc <;>
        subst hcc <;>
        simp [ControlCall.suppliedAuthor, ControlCall.suppliedSession]

/--
Witness for C7: a concrete session forwards its own author ID on
`applyDelta` no matter what delta the caller sends.
-/
theorem C7_witness :
    AuthorSession.dispatch (δ := String) ⟨"session-1", "alice"⟩
        (.applyDelta 12 "payload")
      = some (.docApplyDelta 12 "payload" "alice") :=
  (C7_author_identity_injected (δ := String) ⟨"session-1", "alice"⟩
    (.applyDelta 12 "payload")).1 12 "payload"

/--
Result shape of `BaseFile._impl_transact` as consumed by the validation in
`BaseFile.transact()`: the satisfied revision number and the optional
post-write revision number (`null` meaning the spec had no writes). The
read-data map is irrelevant to the revision-number claims and omitted.
-/
structure TransactOut where
  revNum : Int
  newRevNum : Option Int
deriving DecidableEq

/--
Embeds the validation in `BaseFile.transact(spec)`: the implementation
result must have a non-negative `revNum` (`TInt.nonNegative`), and when
`newRevNum` is present it must be at least `revNum + 1` (`TInt.min`), each
violation being a bad-value error. The `TInt` class body is not under
`src/`; the bound checks follow its uses and the `typecheck` module
conventions. The read-data validation is omitted as irrelevant to the
revision-number claims.
-/
def BaseFile.transact (implResult : TransactOut) : Except Err TransactOut :=
  if 0 ≤ implResult.revNum then
    match implResult.newRevNum with
    | none => .ok implResult
    | some n =>
      if implResult.revNum + 1 ≤ n then .ok implResult
      else .error (.badValue "newRevNum below revNum plus one")
  else .error (.badValue "revNum must be non-negative")

/--
Embeds one call to `BaseFile.revNum()` from the stored `_lastRevNum` state:
an empty-spec transaction yields the instantaneous revision number, which
is validated to be no lower than the last reported one (`TInt.min` against
`_lastRevNum`) and then stored. Returns the reported value paired with the
new state.
-/
def BaseFile.revNumRead (lastRevNum : Int) (implResult : TransactOut) :
    Except Err (Int × Int) :=
  match BaseFile.transact implResult with
  | .error e => .error e
  | .ok result =>
    if lastRevNum ≤ result.revNum then .ok (result.revNum, result.revNum)
    else .error (.badValue "revNum moved backward")

/--
Runs a sequence of `BaseFile.revNum()` calls against the successive
implementation answers, returning the values successfully reported to
callers. A call that fails validation reports nothing and leaves
`_lastRevNum` unchanged, as in the JavaScript (the throw happens before
the assignment).
-/
def BaseFile.revNumReads (lastRevNum : Int) :
    List TransactOut → List Int
  | [] => []
  | r :: rest =>
    match BaseFile.revNumRead lastRevNum r with
    | .ok (v, st) => v :: BaseFile.revNumReads st rest
    | .error _ => BaseFile.revNumReads lastRevNum rest

/--
Helper: every value reported by a run of `revNum()` reads is at least the
starting `_lastRevNum` state, and the reported sequence is monotone
non-decreasing.
-/
theorem revNumRead_ok_shape (st : Int) (r : TransactOut) (v st2 : Int)
    (hp : BaseFile.revNumRead st r = .ok (v, st2)) : st2 = v ∧ st ≤ v := by
  unfold BaseFile.revNumRead at hp
  split at hp
  · simp at hp
  · split at hp
    · simp at hp
      omega
    · simp at hp

theorem revNumReads_mono (rs : List TransactOut) :
    ∀ st : Int, List.Chain' (· ≤ ·) (BaseFile.revNumReads st rs)
      ∧ ∀ v ∈ BaseFile.revNumReads st rs, st ≤ v := by
  induction rs with
  | nil => intro st; simp [BaseFile.revNumReads]
  | cons r rest ih =>
    intro st
    rcases hres : BaseFile.revNumRead st r with e | p
    · have hreads : BaseFile.revNumReads st (r :: rest)
          = BaseFile.revNumReads st rest := by
        simp only [BaseFile.revNumReads, hres]
      rw [hreads]
      exact ih st
    · rcases p with ⟨v, st2⟩
      obtain ⟨hst2, hle⟩ := revNumRead_ok_shape st r v st2 hres
      rw [hst2] at hres
      have hreads : BaseFile.revNumReads st (r :: rest)
          = v :: BaseFile.revNumReads v rest := by
        simp only [BaseFile.revNumReads, hres]
      rw [hreads]
      refine ⟨List.chain'_cons'.2 ⟨?_, (ih v).1⟩, ?_⟩
      · intro h2 hh2
        exact (ih v).2 h2 (List.mem_of_mem_head? hh2)
      · intro w hw
        rcases List.mem_cons.1 hw with h1 | h2
        · omega
        · have := (ih v).2 w h2; omega

/--
C9: revision numbers of a file move only forward and writes advance them:
(a) across any sequence of `revNum()` calls, the successfully reported
values form a monotone non-decreasing chain (a read never reports a value
lower than a previously reported one, enforced against the stored
`_lastRevNum`); (b) a successful transaction that reports a post-write
`newRevNum` reports one that is at least `revNum + 1`.
-/
theorem C9_revNum_monotone_gapless :
    (∀ (st : Int) (rs : List TransactOut),
        List.Chain' (· ≤ ·) (BaseFile.revNumReads st rs))
    ∧ (∀ (implResult out : TransactOut) (n : Int),
        BaseFile.transact implResult = .ok out → out.newRevNum = some n →
        implResult.revNum + 1 ≤ n) := by
  refine ⟨fun st rs => (revNumReads_mono rs st).1, ?_⟩
  intro implResult out n htr hnew
  unfold BaseFile.transact at htr
  split at htr
  · split at htr
    · next hnone =>
      simp at htr
      subst htr
      rw [hnone] at hnew
      cases hnew
    · next m hsome =>
      split at htr
      · next hmin =>
        simp at htr
        subst htr
        rw [hsome] at hnew
        injection hnew with hmn
        omega
      · simp at htr
  · simp at htr

/--
Witness for C9: a concrete run in which the file answers revisions 3, 3, 5
reports the monotone chain of values 3, 3, 5, and a concrete write
transaction from revision 4 to 5 satisfies the post-write bound.
-/
theorem C9_witness :
    List.Chain' (· ≤ ·)
        (BaseFile.revNumReads (-1) [⟨3, none⟩, ⟨3, none⟩, ⟨5, none⟩])
    ∧ (4 : Int) + 1 ≤ 5 :=
  ⟨C9_revNum_monotone_gapless.1 (-1) [⟨3, none⟩, ⟨3, none⟩, ⟨5, none⟩],
   C9_revNum_monotone_gapless.2 ⟨4, some 5⟩ ⟨4, some 5⟩ 5 rfl rfl⟩

/--
Delta instance with its dynamic concrete-class identity, for the
`BaseDelta.compose` validation logic: JavaScript objects carry their
constructor, and `this.constructor.check(other)` compares it. The class
identity is encoded as a number.
-/
structure BaseDeltaObj (π : Type) where
  cls : Nat
  ops : List π
deriving DecidableEq

/--
Behavior of one concrete `BaseDelta` subclass: its `_impl_compose` and
`_impl_isDocument` overrides.
-/
structure DeltaImpl (π : Type) where
  implCompose : BaseDeltaObj π → BaseDeltaObj π → Bool → BaseDeltaObj π
  implIsDocument : BaseDeltaObj π → Bool

/--
Embeds `BaseDelta.isDocument()`: defers to the `_impl_isDocument` override
of the instance class (the boolean-type check is carried by the type).
-/
def BaseDeltaObj.isDocument {π : Type} (impls : Nat → DeltaImpl π)
    (d : BaseDeltaObj π) : Bool :=
  (impls d.cls).implIsDocument d

/--
Embeds `BaseDelta.compose(other, wantDocument)`: checks that `other` is an
instance of the same concrete class (bad-value), that a `wantDocument`
request is only made of a document instance (bad-use), runs the subclass
`_impl_compose`, checks the class of the result (bad-value), and checks
that a `wantDocument` request produced a document, failing with the
internal-consistency `wtf` error (a subclass bug) otherwise.
-/
def BaseDeltaObj.compose {π : Type} (impls : Nat → DeltaImpl π)
    (a other : BaseDeltaObj π) (wantDocument : Bool) :
    Except Err (BaseDeltaObj π) :=
  if other.cls ≠ a.cls then
    .error (.badValue "other must be an instance of the same class")
  else if wantDocument && !(BaseDeltaObj.isDocument impls a) then
    .error (.badUse "wantDocument === true on non-document instance")
  else
    let result := (impls a.cls).implCompose a other wantDocument
    if result.cls ≠ a.cls then
      .error (.badValue "result must be an instance of the same class")
    else if wantDocument && !(BaseDeltaObj.isDocument impls result) then
      .error (.wtf "Non-document return value when passed true for wantDocument")
    else .ok result

/--
C8: `compose` fails with a bad-value (InvalidArgument-class) error when
`other` is of a different concrete subclass; it fails with a bad-use
(InvalidArgument-class) error when `wantDocument` is true but the receiver
is not a document; and when `wantDocument` is true, the receiver is a
document, and the subclass implementation returns a (same-class)
non-document result, it fails with the `wtf` internal-consistency error,
which is not an input-validation error.
-/
theorem C8_compose_validation {π : Type} (impls : Nat → DeltaImpl π)
    (a b : BaseDeltaObj π) (w : Bool) :
    (b.cls ≠ a.cls →
        BaseDeltaObj.compose impls a b w
          = .error (.badValue "other must be an instance of the same class"))
    ∧ (b.cls = a.cls → w = true → BaseDeltaObj.isDocument impls a = false →
        BaseDeltaObj.compose impls a b w
          = .error (.badUse "wantDocument === true on non-document instance"))
    ∧ (b.cls = a.cls → w = true → BaseDeltaObj.isDocument impls a = true →
        ((impls a.cls).implCompose a b w).cls = a.cls →
        BaseDeltaObj.isDocument impls ((impls a.cls).implCompose a b w) = false →
        BaseDeltaObj.compose impls a b w
          = .error (.wtf "Non-document return value when passed true for wantDocument"))
    ∧ (∀ m, Err.isInputError (.badValue m) = true)
    ∧ (∀ m, Err.isInputError (.badUse m) = true)
    ∧ (∀ m, Err.isInputError (.wtf m) = false) := by
  refine ⟨?_, ?_, ?_, fun _ => rfl, fun _ => rfl, fun _ => rfl⟩
  · intro hne
    simp [BaseDeltaObj.compose, hne]
  · intro heq hw hnd
    simp [BaseDeltaObj.compose, heq, hw, hnd]
  · intro heq hw hd hrc hrnd
    subst hw
    simp [BaseDeltaObj.compose, heq, hd, hrc, hrnd]

/--
Witness for C8: a concrete subclass pair exercising all three failure
paths: a different-class argument is a bad value, a `wantDocument` request
on a non-document receiver is a bad use, and an implementation returning a
non-document under `wantDocument` is the internal-consistency failure.
-/
theorem C8_witness :
    BaseDeltaObj.compose
        (fun _ => (⟨fun x _ _ => ⟨x.cls, []⟩, fun d => !d.ops.isEmpty⟩ :
          DeltaImpl String))
        ⟨0, ["x"]⟩ ⟨1, ["y"]⟩ false
      = .error (.badValue "other must be an instance of the same class")
    ∧ BaseDeltaObj.compose
        (fun _ => (⟨fun x _ _ => ⟨x.cls, []⟩, fun d => !d.ops.isEmpty⟩ :
          DeltaImpl String))
        ⟨0, []⟩ ⟨0, ["y"]⟩ true
      = .error (.badUse "wantDocument === true on non-document instance")
    ∧ BaseDeltaObj.compose
        (fun _ => (⟨fun x _ _ => ⟨x.cls, []⟩, fun d => !d.ops.isEmpty⟩ :
          DeltaImpl String))
        ⟨0, ["x"]⟩ ⟨0, ["y"]⟩ true
      = .error (.wtf "Non-document return value when passed true for wantDocument") :=
  ⟨(C8_compose_validation
      (fun _ => (⟨fun x _ _ => ⟨x.cls, []⟩, fun d => !d.ops.isEmpty⟩ :
        DeltaImpl String)) ⟨0, ["x"]⟩ ⟨1, ["y"]⟩ false).1 (by decide),
   (C8_compose_validation
      (fun _ => (⟨fun x _ _ => ⟨x.cls, []⟩, fun d => !d.ops.isEmpty⟩ :
        DeltaImpl String)) ⟨0, []⟩ ⟨0, ["y"]⟩ true).2.1 rfl rfl rfl,
   (C8_compose_validation
      (fun _ => (⟨fun x _ _ => ⟨x.cls, []⟩, fun d => !d.ops.isEmpty⟩ :
        DeltaImpl String)) ⟨0, ["x"]⟩ ⟨0, ["y"]⟩ true).2.2.1 rfl rfl rfl rfl rfl⟩

/--
Pluggable delta algebra underlying `DocumentSnapshot`: the low-level delta
compose, diff, document predicate and structural delta equality. Out of
core scope per the spec (quill-delta semantics); consumed abstractly here.
-/
structure DeltaAlgebra (δ : Type) where
  compose : δ → δ → δ
  diff : δ → δ → δ
  isDocument : δ → Bool
  deq : δ → δ → Bool

/--
Revisioned delta, from `DocumentDelta`: a target revision number paired
with the delta payload (the shape `DocumentSnapshot.compose` and
`DocumentSnapshot.diff` exchange).
-/
structure DocumentDelta (δ : Type) where
  revNum : Nat
  delta : δ
deriving DecidableEq

/--
Snapshot data, from `DocumentSnapshot`: a revision number plus document
contents.
-/
structure DocumentSnapshot (δ : Type) where
  revNum : Nat
  contents : δ
deriving DecidableEq

/--
Embeds the `DocumentSnapshot` constructor: checks the revision number (the
`Nat` type carries `RevisionNumber.check`) and rejects contents that are
not a document.
-/
def DocumentSnapshot.make {δ : Type} (alg : DeltaAlgebra δ) (revNum : Nat)
    (contents : δ) : Except Err (DocumentSnapshot δ) :=
  if alg.isDocument contents then .ok ⟨revNum, contents⟩
  else .error (.badValue "contents must be a document")

/--
Embeds `DocumentSnapshot.compose(delta)`: the class check on `delta` is
type-level; the result is a new snapshot at `delta.revNum` whose contents
are the delta-level composition of this snapshot contents with
`delta.delta`, constructed through the validating constructor. Note that
the method places no requirement relating `delta.revNum` to `this.revNum`.
-/
def DocumentSnapshot.compose {δ : Type} (alg : DeltaAlgebra δ)
    (s : DocumentSnapshot δ) (delta : DocumentDelta δ) :
    Except Err (DocumentSnapshot δ) :=
  DocumentSnapshot.make alg delta.revNum (alg.compose s.contents delta.delta)

/--
Dynamic-typed value crossing the JavaScript boundary into the delta-level
`diff`: the call site may hand the delta-level operation a delta of the
algebra class, or any other object, in particular a whole
`DocumentSnapshot`.
-/
inductive DeltaArg (δ : Type) where
  | delta (d : δ)
  | snapshot (s : DocumentSnapshot δ)

/--
Modelled from the spec: the delta-level `diff` of the pluggable delta
algebra (`FrozenDelta`, backed by the external quill-delta library, not
under `src/`), consumed through the dynamic JavaScript boundary. Per the
spec contract, delta-algebra operations consume arguments of the same
concrete delta subclass and reject anything else as invalid input; in
particular a `DocumentSnapshot` argument exposes none of the delta
operations the diff needs, so it is rejected.
-/
def DeltaAlgebra.diffDyn {δ : Type} (alg : DeltaAlgebra δ) (d : δ) :
    DeltaArg δ → Except Err δ
  | .delta other => .ok (alg.diff d other)
  | .snapshot _ => .error (.badValue "diff called with a non-delta argument")

/--
Embeds `DocumentSnapshot.diff(newerSnapshot)`: the snapshot class check on
the argument is type-level (and passes); the method then hands the
`newerSnapshot` object itself, not its contents delta, to the delta-level
diff of this snapshot contents (`this._contents.diff(newerSnapshot)`), and
wraps a successful result in a `DocumentDelta` at the newer snapshot
revision number.
-/
def DocumentSnapshot.diff {δ : Type} (alg : DeltaAlgebra δ)
    (s newerSnapshot : DocumentSnapshot δ) : Except Err (DocumentDelta δ) :=
  match alg.diffDyn s.contents (.snapshot newerSnapshot) with
  | .error e => .error e
  | .ok delta => .ok ⟨newerSnapshot.revNum, delta⟩

/--
Concrete delta algebra used for counterexamples and witnesses, analogous
to the mock delta of the in-src test suite: ops are uninterpreted strings,
composition appends, diff returns the newer contents, everything is a
document.
-/
def mockAlg : DeltaAlgebra (List String) :=
  ⟨fun a b => a ++ b, fun _ b => b, fun _ => true, fun a b => a == b⟩

/--
Counterexample for C3: composing a change at revision 20 onto a snapshot
at revision 10 (so with `c.revNum` different from `s.revNum + 1`) is not
an error: it succeeds and produces the snapshot at revision 20, exactly as
the in-src test suite asserts for the same revision numbers.
-/
theorem C3_counterexample :
    DocumentSnapshot.compose mockAlg ⟨10, ["x"]⟩ ⟨20, ["y"]⟩
      = .ok ⟨20, ["x", "y"]⟩
    ∧ (20 : Nat) ≠ 10 + 1 :=
  ⟨rfl, by omega⟩

/--
C3 (amended): `compose` places no requirement that `c.revNum` equal
`s.revNum + 1`; for any change whose composed contents form a document it
succeeds, and the resulting snapshot revision number equals `c.revNum`.
-/
theorem C3_compose_revNum {δ : Type} (alg : DeltaAlgebra δ)
    (s : DocumentSnapshot δ) (c : DocumentDelta δ)
    (hdoc : alg.isDocument (alg.compose s.contents c.delta) = true) :
    DocumentSnapshot.compose alg s c = .ok ⟨c.revNum, alg.compose s.contents c.delta⟩
    ∧ ∀ r, DocumentSnapshot.compose alg s c = .ok r → r.revNum = c.revNum := by
  constructor
  · simp [DocumentSnapshot.compose, DocumentSnapshot.make, hdoc]
  · intro r hr
    simp [DocumentSnapshot.compose, DocumentSnapshot.make, hdoc] at hr
    rw [← hr]

/--
Witness for C3 (amended): the concrete composition at revisions 10 and 20
succeeds with resulting revision number 20.
-/
theorem C3_witness :
    DocumentSnapshot.compose mockAlg ⟨10, ["x"]⟩ ⟨20, ["y"]⟩
      = .ok ⟨20, ["x", "y"]⟩ :=
  (C3_compose_revNum mockAlg ⟨10, ["x"]⟩ ⟨20, ["y"]⟩ rfl).1

/--
C4: the compose-diff round trip fails on the code as written. The `diff`
method hands the newer snapshot object itself, not its contents delta, to
the delta-level diff, so the delta-level operation rejects its argument for
every algebra and every snapshot pair: `s1.diff(s2)` throws and no
correction change is ever produced for `compose` to consume. The second
conjunct evaluates the code at the concrete failing input of snapshots at
revisions 10 and 20 over the mock algebra. This contradicts the method
documentation in the source, which states the round-trip equation for
`compose` and `diff`.
-/
theorem C4_diff_type_error :
    (∀ (δ : Type) (alg : DeltaAlgebra δ) (s1 s2 : DocumentSnapshot δ),
        DocumentSnapshot.diff alg s1 s2
          = .error (.badValue "diff called with a non-delta argument"))
    ∧ DocumentSnapshot.diff mockAlg ⟨10, ["x"]⟩ ⟨20, ["y"]⟩
        = .error (.badValue "diff called with a non-delta argument") :=
  ⟨fun _ _ _ _ => rfl, rfl⟩

end Bayou
